import Mathlib

/-!
# Interrupt layer of the x86 nanokernel port and the AON periodic timer driver

A shallow embedding of

* `include/arch/x86/arch.h`: `_arch_irq_lock`, `_arch_irq_unlock`, the latency
  hooks, `_VECTOR_ARG`, `_IRQ_TO_INTERRUPT_VECTOR` and `_ARCH_IRQ_CONNECT`;
* `drivers/counter/counter_qmsi_aonpt.c`: the reentrancy gate, `start`, `stop`,
  `set_alarm`, the interrupt callback and the power-management hook.

Machine words are natural numbers; C `int` results are integers.  Code that the
two files only call (the `pushfl/cli/popl` and `sti` sequences, the QMSI HAL, the
nanokernel semaphore, the header constants) is either a parameter of the model or
a definition marked as modelled.
-/

namespace X86

/-! ## Interrupt lock / unlock (`arch.h`, lines 307-380) -/

/-- The part of the processor the lock primitives act on: the `EFLAGS` register
(interrupt-enable flag `IF` is bit 9, mask `0x200`) and the record kept by the
interrupt-latency benchmark, of an arbitrary type `L`. -/
structure Cpu (L : Type) where
  eflags : Nat
  lat : L

/-- Interrupt-enable state of the processor: bit `0x200` of `EFLAGS`. -/
def interrupts_enabled {L : Type} (s : Cpu L) : Bool :=
  (s.eflags &&& 0x200) != 0

/-- Modelled from the spec: `_do_irq_lock` lives in `asm_inline.h`, which is not
among the sources.  "lock returns the flags word whose bit 0x200 is the prior
enable state and then disables": the key is the whole `EFLAGS` word, and `IF` is
cleared in the 32-bit register. -/
def _do_irq_lock {L : Type} (s : Cpu L) : Nat × Cpu L :=
  (s.eflags, { s with eflags := s.eflags &&& 0xFFFFFDFF })

/-- Modelled from the spec: `_do_irq_unlock` lives in `asm_inline.h`, which is not
among the sources.  It enables interrupts: `IF` is set, nothing else changes. -/
def _do_irq_unlock {L : Type} (s : Cpu L) : Cpu L :=
  { s with eflags := s.eflags ||| 0x200 }

/-- The two latency hooks of `CONFIG_INT_LATENCY_BENCHMARK`.  Their bodies are not
in `arch.h` (only the prototypes are); they are parameters acting on the latency
record alone. -/
structure IntLatency (L : Type) where
  start : L → L
  stop : L → L

/-- `_int_latency_start()`: a real call under `CONFIG_INT_LATENCY_BENCHMARK`
(`some h`), the empty statement `do { } while (0)` otherwise (`none`). -/
def _int_latency_start {L : Type} (cfg : Option (IntLatency L)) (s : Cpu L) : Cpu L :=
  match cfg with
  | none => s
  | some h => { s with lat := h.start s.lat }

/-- `_int_latency_stop()`: a real call under `CONFIG_INT_LATENCY_BENCHMARK`
(`some h`), the empty statement otherwise (`none`). -/
def _int_latency_stop {L : Type} (cfg : Option (IntLatency L)) (s : Cpu L) : Cpu L :=
  match cfg with
  | none => s
  | some h => { s with lat := h.stop s.lat }

/-- `_arch_irq_lock`: `key = _do_irq_lock(); _int_latency_start(); return key;` -/
def _arch_irq_lock {L : Type} (cfg : Option (IntLatency L)) (s : Cpu L) : Nat × Cpu L :=
  let r := _do_irq_lock s
  (r.1, _int_latency_start cfg r.2)

/-- `_arch_irq_unlock`: `if (!(key & 0x200)) return; _int_latency_stop();
_do_irq_unlock();` -/
def _arch_irq_unlock {L : Type} (cfg : Option (IntLatency L)) (key : Nat) (s : Cpu L) :
    Cpu L :=
  if key &&& 0x200 = 0 then s
  else _do_irq_unlock (_int_latency_stop cfg s)

/-! ### Nested critical sections -/

/-- One call of a caller that uses the primitives as documented: `lock` keeps the
returned key, `unlock` hands back the key of the innermost open `lock`. -/
inductive Op where
  | lock
  | unlock
  deriving DecidableEq, Repr

/-- A sequence of calls is properly nested at depth `d` when no `unlock` comes
without an open `lock` and exactly the `d` locks open at the start are left
closed at the end. -/
def nested : Nat → List Op → Bool
  | d, [] => d == 0
  | d, Op.lock :: r => nested (d + 1) r
  | 0, Op.unlock :: _ => false
  | d + 1, Op.unlock :: r => nested d r

/-- One call.  The list holds the keys of the open locks, innermost first; an
`unlock` with no open lock has no key to pass and is not executed. -/
def step {L : Type} (cfg : Option (IntLatency L)) :
    Op → Cpu L × List Nat → Option (Cpu L × List Nat)
  | Op.lock, (s, ks) => some ((_arch_irq_lock cfg s).2, (_arch_irq_lock cfg s).1 :: ks)
  | Op.unlock, (_, []) => none
  | Op.unlock, (s, k :: ks) => some (_arch_irq_unlock cfg k s, ks)

/-- Run a sequence of calls; the result is the list of processor states reached
after each call, in order, and the final processor state with the keys still
held. -/
def exec {L : Type} (cfg : Option (IntLatency L)) :
    List Op → Cpu L × List Nat → Option (List (Cpu L) × (Cpu L × List Nat))
  | [], st => some ([], st)
  | o :: r, st =>
    match step cfg o st with
    | none => none
    | some st1 =>
      match exec cfg r st1 with
      | none => none
      | some (tr, st2) => some (st1.1 :: tr, st2)

/-! ## Static interrupt connection (`arch.h`, lines 77-221) -/

/-- Symbol `<isr>_irq<irq>_stub` of the trampoline that `_ARCH_IRQ_CONNECT`
generates: it is named after the service routine and the IRQ line. -/
structure StubSym where
  isr : Nat
  irq : Nat
  deriving DecidableEq, Repr

/-- `ISR_LIST`: one record of the `.intList` section, fields in the order of the
C structure. -/
structure ISR_LIST where
  fnc : StubSym
  irq : Nat
  priority : Nat
  vec : Nat
  dpl : Nat
  deriving DecidableEq, Repr

/-- The trampoline in `.text.irqstubs`: `pushl isr_param; pushl isr;
jmp _interrupt_enter`. -/
structure IrqStub where
  sym : StubSym
  isr_param : Nat
  isr : Nat
  deriving DecidableEq, Repr

/-- What a connection leaves behind: the records of `.intList`, the stubs of
`.text.irqstubs` (both build-time artefacts) and the calls made at run time to
`_irq_controller_irq_config`, each as (vector, irq, flags). -/
structure IrqWorld where
  intList : List ISR_LIST
  irqstubs : List IrqStub
  ctrl : List (Nat × Nat × Nat)
  deriving DecidableEq, Repr

/-- `_VECTOR_ARG(irq_p)`: `_IRQ_CONTROLLER_VECTOR_MAPPING(irq_p)` under
`CONFIG_X86_FIXED_IRQ_MAPPING`, the sentinel `(-1)` otherwise, which the 32-bit
`.long` of the `unsigned int vec` field holds as `0xFFFFFFFF`.  The controller's
mapping macro is defined in `irq_controller.h`, not among the sources, and is the
parameter `mapping`. -/
def _VECTOR_ARG (fixed : Bool) (mapping : Nat → Nat) (irq_p : Nat) : Nat :=
  if fixed then mapping irq_p else 0xFFFFFFFF

/-- `_IRQ_TO_INTERRUPT_VECTOR(irq)`: the controller's mapping under
`CONFIG_X86_FIXED_IRQ_MAPPING`, `(unsigned int) _irq_to_interrupt_vector[irq]`
otherwise.  The table is `extern unsigned char []`, filled in by the offline
generator: a parameter giving one byte per index. -/
def _IRQ_TO_INTERRUPT_VECTOR (fixed : Bool) (mapping : Nat → Nat)
    (_irq_to_interrupt_vector : Nat → Fin 256) (irq : Nat) : Nat :=
  if fixed then mapping irq else (_irq_to_interrupt_vector irq).val

/-- Modelled from the spec: `_irq_controller_irq_config` belongs to the interrupt
controller driver, not among the sources.  "associate the resolved vector with
the IRQ line and the requested trigger mode": the call is recorded with its three
arguments. -/
def _irq_controller_irq_config (vector irq flags : Nat) (w : IrqWorld) : IrqWorld :=
  { w with ctrl := w.ctrl ++ [(vector, irq, flags)] }

/-- `_ARCH_IRQ_CONNECT(irq_p, priority_p, isr_p, isr_param_p, flags_p)`: the
`.intList` record `{stub, irq, priority, _VECTOR_ARG(irq), 0}`, the stub, the call
`_irq_controller_irq_config(_IRQ_TO_INTERRUPT_VECTOR(irq_p), irq_p, flags_p)`, and
the value `_IRQ_TO_INTERRUPT_VECTOR(irq_p)` of the statement expression. -/
def _ARCH_IRQ_CONNECT (fixed : Bool) (mapping : Nat → Nat)
    (_irq_to_interrupt_vector : Nat → Fin 256)
    (irq_p priority_p isr_p isr_param_p flags_p : Nat) (w : IrqWorld) : Nat × IrqWorld :=
  let w1 : IrqWorld :=
    { w with
      intList := w.intList ++
        [{ fnc := ⟨isr_p, irq_p⟩, irq := irq_p, priority := priority_p,
           vec := _VECTOR_ARG fixed mapping irq_p, dpl := 0 }]
      irqstubs := w.irqstubs ++
        [{ sym := ⟨isr_p, irq_p⟩, isr_param := isr_param_p, isr := isr_p }] }
  let w2 := _irq_controller_irq_config
    (_IRQ_TO_INTERRUPT_VECTOR fixed mapping _irq_to_interrupt_vector irq_p) irq_p flags_p w1
  (_IRQ_TO_INTERRUPT_VECTOR fixed mapping _irq_to_interrupt_vector irq_p, w2)

end X86

namespace Aonpt

/-! ## AON periodic timer driver (`counter_qmsi_aonpt.c`) -/

/-- `counter_callback_t`: a pointer to a user function, `none` for `NULL`. -/
abbrev counter_callback_t := Option Nat

/-- The only function the driver ever hands to the HAL as its callback. -/
inductive qm_callback where
  | aonpt_int_callback
  deriving DecidableEq, Repr

/-- `qm_aonpt_config_t`, with the four fields the driver fills in; the pointer
`callback_data` is a number, `NULL` being 0. -/
structure qm_aonpt_config_t where
  callback : Option qm_callback
  int_en : Bool
  count : Nat
  callback_data : Nat
  deriving DecidableEq, Repr

/-- The two memory-mapped registers the driver reads or writes itself:
`QM_AONC[QM_AONC_0].aonpt_cfg` and `QM_SCSS_INT->int_aon_timer_mask`. -/
structure Soc where
  aonpt_cfg : Nat
  int_aon_timer_mask : Nat
  deriving DecidableEq, Repr

/-- `qm_aonpt_set_config` of the QMSI HAL, which is outside the sources: any
function from the registers and the configuration to a return code (0 is
success) and the registers afterwards. -/
abbrev Hal := Soc → qm_aonpt_config_t → Int × Soc

/-- Constants of headers that are not among the sources (`errno.h`, `device.h`)
and the build option `CONFIG_AON_API_REENTRANCY`, which fixes the constant
`reentrancy_protection` to 1 or 0. -/
structure Config where
  reentrancy_protection : Bool
  EIO : Int
  ENOTSUP : Int
  DEVICE_PM_SET_POWER_STATE : Nat
  DEVICE_PM_GET_POWER_STATE : Nat
  DEVICE_PM_SUSPEND_STATE : Nat
  DEVICE_PM_ACTIVE_STATE : Nat

/-- Observable steps of the driver, recorded in program order. -/
inductive Event where
  | sem_init
  | sem_take
  | sem_give
  | set_config (cfg : qm_aonpt_config_t)
  | write_user_cb (v : counter_callback_t)
  | user_callback (cb : Nat) (user_data : Nat)
  deriving DecidableEq, Repr

/-- The driver's variables: the static `user_cb`, the members of
`struct aon_data`, the static `int_aonpt_mask_save`, the registers, and the
record of the steps taken so far. -/
structure Driver where
  user_cb : counter_callback_t
  sem : Nat
  device_power_state : Nat
  int_aonpt_mask_save : Nat
  soc : Soc
  trace : List Event
  deriving DecidableEq, Repr

/-- Modelled from the spec: the nanokernel semaphore is not among the sources; it
is the "binary gate" of the driver.  `nano_sem_init` leaves it with no signal. -/
def nano_sem_init (d : Driver) : Driver :=
  { d with sem := 0, trace := d.trace ++ [Event.sem_init] }

/-- Modelled from the spec: the nanokernel semaphore is not among the sources.
`nano_sem_give` signals the gate once. -/
def nano_sem_give (d : Driver) : Driver :=
  { d with sem := d.sem + 1, trace := d.trace ++ [Event.sem_give] }

/-- Modelled from the spec: the nanokernel semaphore is not among the sources.
`nano_sem_take(sem, TICKS_UNLIMITED)` consumes one signal; with none available the
caller waits without bound, so the call has no result. -/
def nano_sem_take (d : Driver) : Option Driver :=
  if d.sem = 0 then none
  else some { d with sem := d.sem - 1, trace := d.trace ++ [Event.sem_take] }

/-- `aon_reentrancy_init`. -/
def aon_reentrancy_init (K : Config) (d : Driver) : Driver :=
  if !K.reentrancy_protection then d
  else nano_sem_give (nano_sem_init d)

/-- `aon_critical_region_start`. -/
def aon_critical_region_start (K : Config) (d : Driver) : Option Driver :=
  if !K.reentrancy_protection then some d
  else nano_sem_take d

/-- `aon_critical_region_end`. -/
def aon_critical_region_end (K : Config) (d : Driver) : Driver :=
  if !K.reentrancy_protection then d
  else nano_sem_give d

/-- The assignment `user_cb = v;`. -/
def set_user_cb (v : counter_callback_t) (d : Driver) : Driver :=
  { d with user_cb := v, trace := d.trace ++ [Event.write_user_cb v] }

/-- The call `qm_aonpt_set_config(QM_AONC_0, &qmsi_cfg)`: return code and state
afterwards. -/
def qm_aonpt_set_config (hal : Hal) (qmsi_cfg : qm_aonpt_config_t) (d : Driver) :
    Int × Driver :=
  ((hal d.soc qmsi_cfg).1,
   { d with soc := (hal d.soc qmsi_cfg).2, trace := d.trace ++ [Event.set_config qmsi_cfg] })

/-- The configuration `aon_timer_qmsi_start` builds. -/
def start_cfg : qm_aonpt_config_t :=
  { callback := none, int_en := false, count := 0xffffffff, callback_data := 0 }

/-- The configuration `aon_timer_qmsi_stop` builds. -/
def stop_cfg : qm_aonpt_config_t :=
  { callback := none, int_en := false, count := 0, callback_data := 0 }

/-- The configuration `aon_timer_qmsi_set_alarm` builds. -/
def alarm_cfg (count user_data : Nat) : qm_aonpt_config_t :=
  { callback := some qm_callback.aonpt_int_callback, int_en := true, count := count,
    callback_data := user_data }

/-- `aon_timer_qmsi_start`; `none` when the call never returns. -/
def aon_timer_qmsi_start (K : Config) (hal : Hal) (d : Driver) : Option (Int × Driver) :=
  let d1 := set_user_cb none d
  match aon_critical_region_start K d1 with
  | none => none
  | some d2 =>
    let r := qm_aonpt_set_config hal start_cfg d2
    let result : Int := if r.1 ≠ 0 then - K.EIO else 0
    some (result, aon_critical_region_end K r.2)

/-- `aon_timer_qmsi_stop`; `none` when the call never returns. -/
def aon_timer_qmsi_stop (K : Config) (hal : Hal) (d : Driver) : Option (Int × Driver) :=
  match aon_critical_region_start K d with
  | none => none
  | some d2 =>
    let r := qm_aonpt_set_config hal stop_cfg d2
    some (0, aon_critical_region_end K r.2)

/-- `aon_timer_qmsi_set_alarm`; `none` when the call never returns. -/
def aon_timer_qmsi_set_alarm (K : Config) (hal : Hal) (callback : counter_callback_t)
    (count user_data : Nat) (d : Driver) : Option (Int × Driver) :=
  if d.soc.aonpt_cfg = 0 then some (- K.ENOTSUP, d)
  else
    let d1 := set_user_cb callback d
    match aon_critical_region_start K d1 with
    | none => none
    | some d2 =>
      let r := qm_aonpt_set_config hal (alarm_cfg count user_data) d2
      if r.1 ≠ 0 then
        some (- K.EIO, aon_critical_region_end K (set_user_cb none r.2))
      else
        some (0, aon_critical_region_end K r.2)

/-- `aonpt_int_callback`: `if (user_cb) (*user_cb)(DEVICE_GET(aon_timer),
user_data);` -/
def aonpt_int_callback (user_data : Nat) (d : Driver) : Driver :=
  match d.user_cb with
  | none => d
  | some cb => { d with trace := d.trace ++ [Event.user_callback cb user_data] }

/-- `aonpt_qmsi_set_power_state`. -/
def aonpt_qmsi_set_power_state (power_state : Nat) (d : Driver) : Driver :=
  { d with device_power_state := power_state }

/-- `aonpt_qmsi_get_power_state`. -/
def aonpt_qmsi_get_power_state (d : Driver) : Nat :=
  d.device_power_state

/-- `aonpt_suspend_device`. -/
def aonpt_suspend_device (K : Config) (d : Driver) : Int × Driver :=
  (0, aonpt_qmsi_set_power_state K.DEVICE_PM_SUSPEND_STATE
        { d with int_aonpt_mask_save := d.soc.int_aon_timer_mask })

/-- `aonpt_resume_device_from_suspend`. -/
def aonpt_resume_device_from_suspend (K : Config) (d : Driver) : Int × Driver :=
  (0, aonpt_qmsi_set_power_state K.DEVICE_PM_ACTIVE_STATE
        { d with soc := { d.soc with int_aon_timer_mask := d.int_aonpt_mask_save } })

/-- `aonpt_qmsi_device_ctrl(dev, ctrl_command, context)`: the return value, the
word `*context` afterwards, and the driver state. -/
def aonpt_qmsi_device_ctrl (K : Config) (ctrl_command context : Nat) (d : Driver) :
    Int × Nat × Driver :=
  if ctrl_command = K.DEVICE_PM_SET_POWER_STATE then
    if context = K.DEVICE_PM_SUSPEND_STATE then
      ((aonpt_suspend_device K d).1, context, (aonpt_suspend_device K d).2)
    else if context = K.DEVICE_PM_ACTIVE_STATE then
      ((aonpt_resume_device_from_suspend K d).1, context,
        (aonpt_resume_device_from_suspend K d).2)
    else (0, context, d)
  else if ctrl_command = K.DEVICE_PM_GET_POWER_STATE then
    (0, aonpt_qmsi_get_power_state d, d)
  else (0, context, d)

/-! ### Reading the record of steps -/

/-- The steps a call added: what follows the first `n` recorded steps. -/
def events_since (n : Nat) (d : Driver) : List Event :=
  d.trace.drop n

/-- The configurations handed to `qm_aonpt_set_config`, in order. -/
def config_writes : List Event → List qm_aonpt_config_t
  | [] => []
  | Event.set_config c :: r => c :: config_writes r
  | _ :: r => config_writes r

/-- The user callbacks invoked, in order, each with the `user_data` it got. -/
def user_callbacks : List Event → List (Nat × Nat)
  | [] => []
  | Event.user_callback cb u :: r => (cb, u) :: user_callbacks r
  | _ :: r => user_callbacks r

/-- Whether every write to `user_cb` in the steps happens while the gate is held,
`held` telling whether it is held at the start. -/
def user_cb_writes_guarded : Bool → List Event → Bool
  | _, [] => true
  | _, Event.sem_take :: r => user_cb_writes_guarded true r
  | _, Event.sem_give :: r => user_cb_writes_guarded false r
  | held, Event.write_user_cb _ :: r => held && user_cb_writes_guarded held r
  | held, _ :: r => user_cb_writes_guarded held r

/-- Whether every call of `qm_aonpt_set_config` in the steps happens while the
gate is held, `held` telling whether it is held at the start. -/
def config_writes_guarded : Bool → List Event → Bool
  | _, [] => true
  | _, Event.sem_take :: r => config_writes_guarded true r
  | _, Event.sem_give :: r => config_writes_guarded false r
  | held, Event.set_config _ :: r => held && config_writes_guarded held r
  | held, _ :: r => config_writes_guarded held r

/-- Number of takes of the gate (`nano_sem_take`) among the steps. -/
def gate_takes : List Event → Nat
  | [] => 0
  | Event.sem_take :: r => gate_takes r + 1
  | _ :: r => gate_takes r

/-- Number of gives of the gate (`nano_sem_give`) among the steps. -/
def gate_gives : List Event → Nat
  | [] => 0
  | Event.sem_give :: r => gate_gives r + 1
  | _ :: r => gate_gives r

/-- The gate operations among the steps (initialisation, take, give), in order. -/
def gate_ops : List Event → List Event
  | [] => []
  | Event.sem_init :: r => Event.sem_init :: gate_ops r
  | Event.sem_take :: r => Event.sem_take :: gate_ops r
  | Event.sem_give :: r => Event.sem_give :: gate_ops r
  | _ :: r => gate_ops r

/-! ### Sample environment -/

/-- A HAL in the manner of QMSI's: the count goes to `aonpt_cfg`, the call
succeeds. -/
def hal_ok : Hal := fun soc cfg => (0, { soc with aonpt_cfg := cfg.count })

/-- A HAL whose write is rejected (`-EINVAL`) and changes nothing. -/
def hal_failing : Hal := fun soc _ => (-22, soc)

/-- Sample values of the header constants, with reentrancy protection
configured. -/
def K0 : Config :=
  { reentrancy_protection := true, EIO := 5, ENOTSUP := 35,
    DEVICE_PM_SET_POWER_STATE := 1, DEVICE_PM_GET_POWER_STATE := 2,
    DEVICE_PM_SUSPEND_STATE := 3, DEVICE_PM_ACTIVE_STATE := 1 }

/-- The same constants with reentrancy protection not configured. -/
def K1 : Config := { K0 with reentrancy_protection := false }

/-- A device right after initialisation: no callback, gate free, timer not
started, the timer interrupt unmasked. -/
def d0 : Driver :=
  { user_cb := none, sem := 1, device_power_state := 1, int_aonpt_mask_save := 0,
    soc := { aonpt_cfg := 0, int_aon_timer_mask := 0xFFFFFFFE }, trace := [] }

/-- A started device with a callback registered earlier. -/
def d1 : Driver :=
  { user_cb := some 7, sem := 1, device_power_state := 1, int_aonpt_mask_save := 0,
    soc := { aonpt_cfg := 0xffffffff, int_aon_timer_mask := 0xFFFFFFFE }, trace := [] }

end Aonpt

/-! # Theorems -/

namespace X86

/-! ### Bit-level facts about the mask `0x200` -/

theorem and_clear_if (e : Nat) : (e &&& 0xFFFFFDFF) &&& 0x200 = 0 := by
  rw [Nat.and_assoc]
  have h : (0xFFFFFDFF : Nat) &&& 0x200 = 0 := by decide
  rw [h, Nat.and_zero]

theorem or_set_if (e : Nat) : (e ||| 0x200) &&& 0x200 = 0x200 := by
  apply Nat.eq_of_testBit_eq
  intro i
  rw [Nat.testBit_and, Nat.testBit_or]
  cases e.testBit i <;> cases Nat.testBit 0x200 i <;> rfl

theorem enabled_after_do_irq_lock {L : Type} (s : Cpu L) :
    interrupts_enabled (_do_irq_lock s).2 = false := by
  simp [interrupts_enabled, _do_irq_lock, and_clear_if]

theorem enabled_after_do_irq_unlock {L : Type} (s : Cpu L) :
    interrupts_enabled (_do_irq_unlock s) = true := by
  simp [interrupts_enabled, _do_irq_unlock, or_set_if]

theorem enabled_int_latency_start {L : Type} (cfg : Option (IntLatency L)) (s : Cpu L) :
    interrupts_enabled (_int_latency_start cfg s) = interrupts_enabled s := by
  cases cfg <;> rfl

theorem enabled_int_latency_stop {L : Type} (cfg : Option (IntLatency L)) (s : Cpu L) :
    interrupts_enabled (_int_latency_stop cfg s) = interrupts_enabled s := by
  cases cfg <;> rfl

theorem enabled_after_lock {L : Type} (cfg : Option (IntLatency L)) (s : Cpu L) :
    interrupts_enabled (_arch_irq_lock cfg s).2 = false := by
  simp [_arch_irq_lock, enabled_int_latency_start, enabled_after_do_irq_lock]

theorem key_of_lock {L : Type} (cfg : Option (IntLatency L)) (s : Cpu L) :
    (_arch_irq_lock cfg s).1 = s.eflags := rfl

theorem enabled_after_unlock {L : Type} (cfg : Option (IntLatency L)) (key : Nat)
    (s : Cpu L) :
    interrupts_enabled (_arch_irq_unlock cfg key s)
      = if key &&& 0x200 = 0 then interrupts_enabled s else true := by
  unfold _arch_irq_unlock
  split
  · rfl
  · exact enabled_after_do_irq_unlock _

/-! ### Nested critical sections -/

theorem exec_cons {L : Type} (cfg : Option (IntLatency L)) (o : Op) (r : List Op)
    (st : Cpu L × List Nat) :
    exec cfg (o :: r) st =
      match step cfg o st with
      | none => none
      | some st1 =>
        match exec cfg r st1 with
        | none => none
        | some (tr, st2) => some (st1.1 :: tr, st2) := rfl

theorem exec_append {L : Type} (cfg : Option (IntLatency L)) (a b : List Op)
    (st : Cpu L × List Nat) :
    exec cfg (a ++ b) st =
      match exec cfg a st with
      | none => none
      | some (tr1, st1) =>
        match exec cfg b st1 with
        | none => none
        | some (tr2, st2) => some (tr1 ++ tr2, st2) := by
  induction a generalizing st with
  | nil =>
    rw [List.nil_append]
    cases h : exec cfg b st with
    | none => simp [exec, h]
    | some p => simp [exec, h]
  | cons o r ih =>
    rw [List.cons_append, exec_cons, exec_cons]
    cases h1 : step cfg o st with
    | none => rfl
    | some st1 =>
      simp only [ih st1]
      cases h2 : exec cfg r st1 with
      | none => rfl
      | some p =>
        obtain ⟨tr1, st2⟩ := p
        simp only
        cases h3 : exec cfg b st2 with
        | none => rfl
        | some q => simp

theorem key_clear_of_disabled {L : Type} (s : Cpu L) (h : interrupts_enabled s = false) :
    s.eflags &&& 0x200 = 0 := by
  simpa [interrupts_enabled] using h

/-- Inside a critical section nothing changes the interrupt-enable state: with
interrupts disabled and only keys of inner locks above `base`, a properly nested
sequence runs to its end, gives back `base` and never enables interrupts. -/
theorem exec_inner {L : Type} (cfg : Option (IntLatency L)) (ops : List Op) :
    ∀ (d : Nat) (s : Cpu L) (ks base : List Nat),
      nested d ops = true → ks.length = d → (∀ k ∈ ks, k &&& 0x200 = 0) →
      interrupts_enabled s = false →
      ∃ tr s1, exec cfg ops (s, ks ++ base) = some (tr, (s1, base)) ∧
        tr.length = ops.length ∧ interrupts_enabled s1 = false ∧
        ∀ x ∈ tr, interrupts_enabled x = false := by
  induction ops with
  | nil =>
    intro d s ks base hn hl _ hs
    have hd : d = 0 := by simpa [nested] using hn
    subst hd
    have hk : ks = [] := List.length_eq_zero.mp hl
    subst hk
    exact ⟨[], s, rfl, rfl, hs, by simp⟩
  | cons o r ih =>
    intro d s ks base hn hl hks hs
    cases o with
    | lock =>
      have hn1 : nested (d + 1) r = true := by simpa [nested] using hn
      have hkey : (_arch_irq_lock cfg s).1 &&& 0x200 = 0 := by
        rw [key_of_lock]; exact key_clear_of_disabled s hs
      obtain ⟨tr, s1, he, hlen, hs1, htr⟩ :=
        ih (d + 1) (_arch_irq_lock cfg s).2 ((_arch_irq_lock cfg s).1 :: ks) base hn1
          (by simp [hl])
          (by
            intro k hk
            rcases List.mem_cons.mp hk with h | h
            · rw [h]; exact hkey
            · exact hks k h)
          (enabled_after_lock cfg s)
      refine ⟨(_arch_irq_lock cfg s).2 :: tr, s1, ?_, by simp [hlen], hs1, ?_⟩
      · simp only [exec, step]
        rw [List.cons_append] at he
        rw [he]
      · intro x hx
        rcases List.mem_cons.mp hx with h | h
        · rw [h]; exact enabled_after_lock cfg s
        · exact htr x h
    | unlock =>
      cases d with
      | zero => simp [nested] at hn
      | succ d =>
        have hn1 : nested d r = true := by simpa [nested] using hn
        cases ks with
        | nil => simp at hl
        | cons k ks =>
          have hk : k &&& 0x200 = 0 := hks k (List.mem_cons_self _ _)
          have hu : _arch_irq_unlock cfg k s = s := by simp [_arch_irq_unlock, hk]
          obtain ⟨tr, s1, he, hlen, hs1, htr⟩ :=
            ih d s ks base hn1 (by simpa using hl)
              (fun k1 h1 => hks k1 (List.mem_cons_of_mem _ h1)) hs
          refine ⟨s :: tr, s1, ?_, by simp [hlen], hs1, ?_⟩
          · simp only [List.cons_append, exec, step, hu]
            rw [he]
          · intro x hx
            rcases List.mem_cons.mp hx with h | h
            · rw [h]; exact hs
            · exact htr x h

/-- C1.  For every processor state `s` (interrupts enabled or not), every latency
configuration and every properly nested sequence `inner` of lock / unlock calls,
the section `lock; inner; unlock`, in which each unlock gets the key of its
matching lock, runs to its end with no key left; the interrupt-enable state after
the outermost unlock (`fin`) equals the one before the outermost lock, and in
every state `mid` reached from the outermost lock up to the outermost unlock
interrupts are disabled. -/
theorem nested_lock_unlock_restores {L : Type} (cfg : Option (IntLatency L)) (s : Cpu L)
    (inner : List Op) (h : nested 0 inner = true) :
    ∃ mid fin, exec cfg (Op.lock :: (inner ++ [Op.unlock])) (s, []) =
        some (mid ++ [fin], (fin, [])) ∧
      mid.length = inner.length + 1 ∧
      interrupts_enabled fin = interrupts_enabled s ∧
      ∀ x ∈ mid, interrupts_enabled x = false := by
  obtain ⟨tr, s1, he, hlen, hs1, htr⟩ :=
    exec_inner cfg inner 0 (_arch_irq_lock cfg s).2 [] [(_arch_irq_lock cfg s).1] h rfl
      (by simp) (enabled_after_lock cfg s)
  refine ⟨(_arch_irq_lock cfg s).2 :: tr,
    _arch_irq_unlock cfg (_arch_irq_lock cfg s).1 s1, ?_, by simp [hlen], ?_, ?_⟩
  · simp only [exec, step]
    rw [exec_append]
    rw [List.nil_append] at he
    simp [he, exec, step]
  · rw [enabled_after_unlock, key_of_lock]
    by_cases hb : s.eflags &&& 0x200 = 0
    · simp [hb, hs1, interrupts_enabled, key_clear_of_disabled s1 hs1]
    · simp [hb, interrupts_enabled]
  · intro x hx
    rcases List.mem_cons.mp hx with h1 | h1
    · rw [h1]; exact enabled_after_lock cfg s
    · exact htr x h1

/-- The nesting `k1 = lock(); k2 = lock(); unlock(k2); unlock(k1)` started with
interrupts enabled (`EFLAGS = 0x202`). -/
theorem nested_lock_unlock_restores_witness :
    nested 0 [Op.lock, Op.unlock] = true ∧
    ∃ mid fin, exec (none : Option (IntLatency Unit))
        (Op.lock :: ([Op.lock, Op.unlock] ++ [Op.unlock])) (⟨0x202, ()⟩, []) =
        some (mid ++ [fin], (fin, [])) ∧
      mid.length = [Op.lock, Op.unlock].length + 1 ∧
      interrupts_enabled fin = interrupts_enabled (⟨0x202, ()⟩ : Cpu Unit) ∧
      ∀ x ∈ mid, interrupts_enabled x = false :=
  ⟨by decide, nested_lock_unlock_restores none ⟨0x202, ()⟩ [Op.lock, Op.unlock] (by decide)⟩

/-! ### What one unlock does -/

/-- C2, as stated, fails: with interrupts enabled (`EFLAGS = 0x200`) and a key
whose bit `0x200` is clear (key 0), `_arch_irq_unlock` returns at once and
interrupts stay enabled, so the state after the call is not the one the key
encodes. -/
theorem unlock_not_always_key_state :
    ¬ ∀ (s : Cpu Unit) (key : Nat),
        interrupts_enabled (_arch_irq_unlock none key s) = ((key &&& 0x200) != 0) := by
  intro h
  have h1 := h ⟨0x200, ()⟩ 0
  revert h1
  decide

/-- C2, amended.  After `_arch_irq_unlock(key)` interrupts are enabled when bit
`0x200` of the key is set; when it is clear the call is a no-op: the whole
processor state, latency record included, is the one from before the call, so
the interrupt-enable state is the one from before the call.  In the flags word
only bit `0x200` can change. -/
theorem unlock_enables_iff_key_or_keeps {L : Type} (cfg : Option (IntLatency L)) (key : Nat)
    (s : Cpu L) :
    interrupts_enabled (_arch_irq_unlock cfg key s)
        = (if key &&& 0x200 = 0 then interrupts_enabled s else true) ∧
      (_arch_irq_unlock cfg key s).eflags
        = (if key &&& 0x200 = 0 then s.eflags else s.eflags ||| 0x200) ∧
      (key &&& 0x200 = 0 → _arch_irq_unlock cfg key s = s) ∧
      (key &&& 0x200 ≠ 0 →
        _arch_irq_unlock cfg key s = _do_irq_unlock (_int_latency_stop cfg s)) := by
  refine ⟨enabled_after_unlock cfg key s, ?_, ?_, ?_⟩
  · unfold _arch_irq_unlock
    split
    · rfl
    · cases cfg <;> rfl
  · intro hk
    unfold _arch_irq_unlock
    rw [if_pos hk]
  · intro hk
    unfold _arch_irq_unlock
    rw [if_neg hk]

/-- With the latency hooks built in, interrupts enabled and a key whose bit
`0x200` is clear, the call leaves the flags word and the latency record as they
were; with the bit set the stop hook runs and interrupts are enabled. -/
theorem unlock_enables_iff_key_or_keeps_witness :
    ((0 : Nat) &&& 0x200 = 0) ∧
    _arch_irq_unlock (some ⟨fun l => l + 1, fun l => l + 10⟩) 0 (⟨0x200, 5⟩ : Cpu Nat)
      = ⟨0x200, 5⟩ ∧
    ((0x202 : Nat) &&& 0x200 ≠ 0) ∧
    _arch_irq_unlock (some ⟨fun l => l + 1, fun l => l + 10⟩) 0x202 (⟨0x2, 5⟩ : Cpu Nat)
      = _do_irq_unlock
          (_int_latency_stop (some ⟨fun l => l + 1, fun l => l + 10⟩) (⟨0x2, 5⟩ : Cpu Nat)) :=
  ⟨by decide,
    (unlock_enables_iff_key_or_keeps (some ⟨fun l => l + 1, fun l => l + 10⟩) 0
      (⟨0x200, 5⟩ : Cpu Nat)).2.2.1 (by decide),
    by decide,
    (unlock_enables_iff_key_or_keeps (some ⟨fun l => l + 1, fun l => l + 10⟩) 0x202
      (⟨0x2, 5⟩ : Cpu Nat)).2.2.2 (by decide)⟩

/-! ### The latency hooks -/

/-- C9.  Built with the latency hooks (`some h`, any two functions on the latency
record) or with the hooks compiled out (`none`), and whatever the latency records
`l`, `l1` hold, `_arch_irq_lock` returns the same key and leaves the same
`EFLAGS`, and `_arch_irq_unlock` leaves the same `EFLAGS`, hence the same
interrupt-enable state. -/
theorem latency_hooks_do_not_alter_lock_unlock {L : Type} (h : IntLatency L) (e key : Nat)
    (l l1 : L) :
    (_arch_irq_lock (some h) ⟨e, l⟩).1 = (_arch_irq_lock none ⟨e, l1⟩).1 ∧
    (_arch_irq_lock (some h) ⟨e, l⟩).2.eflags = (_arch_irq_lock none ⟨e, l1⟩).2.eflags ∧
    interrupts_enabled (_arch_irq_lock (some h) ⟨e, l⟩).2
      = interrupts_enabled (_arch_irq_lock none ⟨e, l1⟩).2 ∧
    (_arch_irq_unlock (some h) key ⟨e, l⟩).eflags
      = (_arch_irq_unlock none key ⟨e, l1⟩).eflags ∧
    interrupts_enabled (_arch_irq_unlock (some h) key ⟨e, l⟩)
      = interrupts_enabled (_arch_irq_unlock none key ⟨e, l1⟩) := by
  refine ⟨rfl, rfl, rfl, ?_, ?_⟩
  · unfold _arch_irq_unlock
    split <;> rfl
  · unfold _arch_irq_unlock
    split <;> rfl

/-! ### Static interrupt connection -/

/-- C6.  Under `CONFIG_X86_FIXED_IRQ_MAPPING` the vector `_ARCH_IRQ_CONNECT`
returns and the `vec` field of the record it adds to `.intList` are both
`_IRQ_CONTROLLER_VECTOR_MAPPING(irq)`: two connections of the same IRQ with any
priorities, routines, arguments and flags return the same vector, and the
contents of `_irq_to_interrupt_vector` play no part in the result. -/
theorem fixed_mapping_vector_depends_on_irq_only (mapping : Nat → Nat)
    (tbl tbl1 : Nat → Fin 256) (irq p1 p2 isr1 isr2 arg1 arg2 flags1 flags2 : Nat)
    (w w1 : IrqWorld) :
    (_ARCH_IRQ_CONNECT true mapping tbl irq p1 isr1 arg1 flags1 w).1 = mapping irq ∧
    (_ARCH_IRQ_CONNECT true mapping tbl irq p1 isr1 arg1 flags1 w).2.intList
      = w.intList ++ [{ fnc := ⟨isr1, irq⟩, irq := irq, priority := p1,
                        vec := mapping irq, dpl := 0 }] ∧
    (_ARCH_IRQ_CONNECT true mapping tbl irq p1 isr1 arg1 flags1 w).1
      = (_ARCH_IRQ_CONNECT true mapping tbl1 irq p2 isr2 arg2 flags2 w1).1 ∧
    (_ARCH_IRQ_CONNECT true mapping tbl1 irq p2 isr2 arg2 flags2 w1).2.intList
      = w1.intList ++ [{ fnc := ⟨isr2, irq⟩, irq := irq, priority := p2,
                         vec := mapping irq, dpl := 0 }] ∧
    _ARCH_IRQ_CONNECT true mapping tbl irq p1 isr1 arg1 flags1 w
      = _ARCH_IRQ_CONNECT true mapping tbl1 irq p1 isr1 arg1 flags1 w := by
  simp [_ARCH_IRQ_CONNECT, _IRQ_TO_INTERRUPT_VECTOR, _VECTOR_ARG, _irq_controller_irq_config]

/-- C7.  `_ARCH_IRQ_CONNECT` calls `_irq_controller_irq_config` exactly once, with
the vector it returns, the IRQ and the flags passed in; that vector is
`_irq_to_interrupt_vector[irq]` in dynamic mode and
`_IRQ_CONTROLLER_VECTOR_MAPPING(irq)` in fixed mode. -/
theorem connect_programs_controller_once (fixed : Bool) (mapping : Nat → Nat)
    (tbl : Nat → Fin 256) (irq priority isr arg flags : Nat) (w : IrqWorld) :
    (_ARCH_IRQ_CONNECT fixed mapping tbl irq priority isr arg flags w).2.ctrl
      = w.ctrl ++ [((_ARCH_IRQ_CONNECT fixed mapping tbl irq priority isr arg flags w).1,
                    irq, flags)] ∧
    (_ARCH_IRQ_CONNECT fixed mapping tbl irq priority isr arg flags w).1
      = (if fixed then mapping irq else (tbl irq).val) := by
  simp [_ARCH_IRQ_CONNECT, _IRQ_TO_INTERRUPT_VECTOR, _irq_controller_irq_config]

end X86

namespace Aonpt

/-! ### The reentrancy gate -/

theorem critical_region_start_of_free (K : Config) (d : Driver)
    (hgate : K.reentrancy_protection = false ∨ 0 < d.sem) :
    aon_critical_region_start K d =
      some (if K.reentrancy_protection then
              { d with sem := d.sem - 1, trace := d.trace ++ [Event.sem_take] }
            else d) := by
  unfold aon_critical_region_start nano_sem_take
  rcases hgate with h | h
  · simp [h]
  · cases hrp : K.reentrancy_protection
    · simp
    · have h0 : d.sem ≠ 0 := by omega
      simp [h0]

/-! ### Results of `start`, `stop` and `set_alarm` -/

/-- With the gate available `aon_timer_qmsi_start` returns, and its result is
`-EIO` for a failed configuration write and 0 for a successful one. -/
theorem start_result (K : Config) (hal : Hal) (d : Driver)
    (hgate : K.reentrancy_protection = false ∨ 0 < d.sem) :
    ∃ d1, aon_timer_qmsi_start K hal d =
      some ((if (hal d.soc start_cfg).1 ≠ 0 then - K.EIO else 0), d1) := by
  unfold aon_timer_qmsi_start
  simp only
  rw [critical_region_start_of_free K (set_user_cb none d) hgate]
  cases hrp : K.reentrancy_protection <;>
    simp [qm_aonpt_set_config, set_user_cb]

/-- With the gate available `aon_timer_qmsi_stop` returns, and its result is 0
whatever the configuration write returned. -/
theorem stop_result (K : Config) (hal : Hal) (d : Driver)
    (hgate : K.reentrancy_protection = false ∨ 0 < d.sem) :
    ∃ d1, aon_timer_qmsi_stop K hal d = some (0, d1) := by
  unfold aon_timer_qmsi_stop
  rw [critical_region_start_of_free K d hgate]
  exact ⟨_, rfl⟩

/-- On a started device with the gate available `aon_timer_qmsi_set_alarm`
returns, and its result is `-EIO` for a failed configuration write and 0 for a
successful one. -/
theorem set_alarm_result (K : Config) (hal : Hal) (callback : counter_callback_t)
    (count user_data : Nat) (d : Driver) (hstarted : d.soc.aonpt_cfg ≠ 0)
    (hgate : K.reentrancy_protection = false ∨ 0 < d.sem) :
    ∃ d1, aon_timer_qmsi_set_alarm K hal callback count user_data d =
      some ((if (hal d.soc (alarm_cfg count user_data)).1 ≠ 0 then - K.EIO else 0), d1) := by
  unfold aon_timer_qmsi_set_alarm
  rw [if_neg hstarted]
  simp only
  rw [critical_region_start_of_free K (set_user_cb callback d) hgate]
  cases hrp : K.reentrancy_protection <;>
    by_cases hrc : (hal d.soc (alarm_cfg count user_data)).1 = 0 <;>
      simp [qm_aonpt_set_config, set_user_cb, hrc]

/-- C3.  `aon_timer_qmsi_set_alarm` returns `-ENOTSUP` exactly when `aonpt_cfg`
reads 0, whatever the callback, count and user data; in that case the driver
state is the one from before the call: `user_cb` is unchanged and no step (no
configuration write, no gate operation) is recorded.  `ENOTSUP` is an error
number of `errno.h`: not 0 and not `EIO`. -/
theorem set_alarm_enotsup_iff_not_started (K : Config) (hal : Hal)
    (callback : counter_callback_t) (count user_data : Nat) (d : Driver)
    (h0 : K.ENOTSUP ≠ 0) (h1 : K.ENOTSUP ≠ K.EIO) :
    ((∃ d1, aon_timer_qmsi_set_alarm K hal callback count user_data d
        = some (- K.ENOTSUP, d1)) ↔ d.soc.aonpt_cfg = 0) ∧
    (d.soc.aonpt_cfg = 0 →
      aon_timer_qmsi_set_alarm K hal callback count user_data d = some (- K.ENOTSUP, d)) := by
  have hcase : d.soc.aonpt_cfg = 0 →
      aon_timer_qmsi_set_alarm K hal callback count user_data d = some (- K.ENOTSUP, d) := by
    intro hz
    simp [aon_timer_qmsi_set_alarm, hz]
  refine ⟨⟨?_, fun hz => ⟨d, hcase hz⟩⟩, hcase⟩
  rintro ⟨d1, hd1⟩
  by_contra hstarted
  unfold aon_timer_qmsi_set_alarm at hd1
  rw [if_neg hstarted] at hd1
  simp only at hd1
  cases hs : aon_critical_region_start K (set_user_cb callback d) with
  | none => simp [hs] at hd1
  | some d2 =>
    simp only [hs] at hd1
    split at hd1
    · simp only [Option.some.injEq, Prod.mk.injEq, neg_inj] at hd1
      exact h1 hd1.1.symm
    · simp only [Option.some.injEq, Prod.mk.injEq] at hd1
      have : K.ENOTSUP = 0 := by omega
      exact h0 this

/-- A device that was never started, asked for an alarm. -/
theorem set_alarm_enotsup_iff_not_started_witness :
    K0.ENOTSUP ≠ 0 ∧ K0.ENOTSUP ≠ K0.EIO ∧
    aon_timer_qmsi_set_alarm K0 hal_ok (some 3) 100 9 d0 = some (- K0.ENOTSUP, d0) :=
  ⟨by decide, by decide,
    (set_alarm_enotsup_iff_not_started K0 hal_ok (some 3) 100 9 d0
      (by decide) (by decide)).2 rfl⟩

/-- C4.  On a started device (`aonpt_cfg != 0`), whatever `user_cb` held before,
when the gate can be taken and the configuration write succeeds,
`aon_timer_qmsi_set_alarm(callback, count, user_data)` returns 0; afterwards
`user_cb` is the new callback, the one configuration handed to the hardware has
the interrupt enabled, the given count and the given user data, the gate is as
before, and a following `aonpt_int_callback(user_data)` invokes that callback
once with `user_data`, or nothing when the callback is `NULL`. -/
theorem set_alarm_arms_one_callback (K : Config) (hal : Hal) (callback : counter_callback_t)
    (count user_data : Nat) (d : Driver) (hstarted : d.soc.aonpt_cfg ≠ 0)
    (hgate : K.reentrancy_protection = false ∨ 0 < d.sem)
    (hok : (hal d.soc (alarm_cfg count user_data)).1 = 0) :
    ∃ d1, aon_timer_qmsi_set_alarm K hal callback count user_data d = some (0, d1) ∧
      d1.user_cb = callback ∧
      config_writes (events_since d.trace.length d1)
        = [{ callback := some qm_callback.aonpt_int_callback, int_en := true,
             count := count, callback_data := user_data }] ∧
      d1.soc = (hal d.soc (alarm_cfg count user_data)).2 ∧
      d1.sem = d.sem ∧
      user_callbacks (events_since d1.trace.length (aonpt_int_callback user_data d1))
        = (match callback with
           | none => []
           | some cb => [(cb, user_data)]) := by
  unfold aon_timer_qmsi_set_alarm
  rw [if_neg hstarted]
  simp only
  rw [critical_region_start_of_free K (set_user_cb callback d) hgate]
  cases hrp : K.reentrancy_protection
  · refine ⟨_, by simp [qm_aonpt_set_config, set_user_cb, hok]; rfl, ?_⟩
    cases callback <;>
      simp [aon_critical_region_end, hrp, qm_aonpt_set_config, set_user_cb, events_since,
        config_writes, user_callbacks, aonpt_int_callback, alarm_cfg]
  · have hs : 0 < d.sem := by
      rcases hgate with h | h
      · rw [hrp] at h; cases h
      · exact h
    refine ⟨_, by simp [qm_aonpt_set_config, set_user_cb, hok]; rfl, ?_⟩
    cases callback <;>
      simp [aon_critical_region_end, hrp, qm_aonpt_set_config, set_user_cb, events_since,
        config_writes, user_callbacks, aonpt_int_callback, alarm_cfg, nano_sem_give] <;>
      omega

/-- A started device holding callback 7 is given callback 3 with user data 9. -/
theorem set_alarm_arms_one_callback_witness :
    d1.soc.aonpt_cfg ≠ 0 ∧ (K0.reentrancy_protection = false ∨ 0 < d1.sem) ∧
    (hal_ok d1.soc (alarm_cfg 100 9)).1 = 0 ∧
    ∃ d2, aon_timer_qmsi_set_alarm K0 hal_ok (some 3) 100 9 d1 = some (0, d2) ∧
      d2.user_cb = some 3 ∧
      config_writes (events_since d1.trace.length d2)
        = [{ callback := some qm_callback.aonpt_int_callback, int_en := true,
             count := 100, callback_data := 9 }] ∧
      d2.soc = (hal_ok d1.soc (alarm_cfg 100 9)).2 ∧
      d2.sem = d1.sem ∧
      user_callbacks (events_since d2.trace.length (aonpt_int_callback 9 d2))
        = [(3, 9)] :=
  ⟨by decide, Or.inr (by decide), rfl,
    set_alarm_arms_one_callback K0 hal_ok (some 3) 100 9 d1 (by decide) (Or.inr (by decide)) rfl⟩

/-- C5, at the failing input.  On the started sample device with the gate free
and a HAL whose configuration write fails, `aon_timer_qmsi_stop` returns 0, where
`aon_timer_qmsi_start` and `aon_timer_qmsi_set_alarm` return `-EIO`, which is not
0. -/
theorem stop_returns_zero_on_failed_write :
    (hal_failing d1.soc stop_cfg).1 ≠ 0 ∧
    (aon_timer_qmsi_stop K0 hal_failing d1).map Prod.fst = some 0 ∧
    (aon_timer_qmsi_start K0 hal_failing d1).map Prod.fst = some (- K0.EIO) ∧
    (aon_timer_qmsi_set_alarm K0 hal_failing (some 3) 100 9 d1).map Prod.fst
      = some (- K0.EIO) ∧
    - K0.EIO ≠ 0 := by
  decide

/-! ### Power management -/

/-- C8.  Take any device state `d` and let `SET_POWER_STATE(SUSPEND)` run in it.
Let `b` be any later state in which the saved mask and the recorded power state
are still the ones the suspend left (the mask register itself may hold anything).
Then `GET_POWER_STATE` in `b` stores `SUSPEND` and changes nothing;
`SET_POWER_STATE(ACTIVE)` in `b` leaves `int_aon_timer_mask` equal to its value
in `d`, and `GET_POWER_STATE` after it stores `ACTIVE`; every call of
`aonpt_qmsi_device_ctrl` returns 0.  The two commands and the two states are
distinct constants of `device.h`. -/
theorem suspend_resume_round_trip (K : Config) (d b : Driver) (ctx ctx1 : Nat)
    (hcmd : K.DEVICE_PM_SET_POWER_STATE ≠ K.DEVICE_PM_GET_POWER_STATE)
    (hst : K.DEVICE_PM_SUSPEND_STATE ≠ K.DEVICE_PM_ACTIVE_STATE)
    (hsave : b.int_aonpt_mask_save =
      (aonpt_qmsi_device_ctrl K K.DEVICE_PM_SET_POWER_STATE K.DEVICE_PM_SUSPEND_STATE
        d).2.2.int_aonpt_mask_save)
    (hps : b.device_power_state =
      (aonpt_qmsi_device_ctrl K K.DEVICE_PM_SET_POWER_STATE K.DEVICE_PM_SUSPEND_STATE
        d).2.2.device_power_state) :
    (aonpt_qmsi_device_ctrl K K.DEVICE_PM_GET_POWER_STATE ctx b).2
        = (K.DEVICE_PM_SUSPEND_STATE, b) ∧
    ((aonpt_qmsi_device_ctrl K K.DEVICE_PM_SET_POWER_STATE K.DEVICE_PM_ACTIVE_STATE
        b).2.2).soc.int_aon_timer_mask = d.soc.int_aon_timer_mask ∧
    (aonpt_qmsi_device_ctrl K K.DEVICE_PM_GET_POWER_STATE ctx1
        (aonpt_qmsi_device_ctrl K K.DEVICE_PM_SET_POWER_STATE K.DEVICE_PM_ACTIVE_STATE
          b).2.2).2.1 = K.DEVICE_PM_ACTIVE_STATE ∧
    ∀ (c x : Nat) (e : Driver), (aonpt_qmsi_device_ctrl K c x e).1 = 0 := by
  have hcmd1 : ¬ K.DEVICE_PM_GET_POWER_STATE = K.DEVICE_PM_SET_POWER_STATE :=
    fun h => hcmd h.symm
  have hst1 : ¬ K.DEVICE_PM_ACTIVE_STATE = K.DEVICE_PM_SUSPEND_STATE :=
    fun h => hst h.symm
  simp only [aonpt_qmsi_device_ctrl, if_true, aonpt_suspend_device,
    aonpt_qmsi_set_power_state] at hsave hps
  refine ⟨?_, ?_, ?_, ?_⟩
  · simp [aonpt_qmsi_device_ctrl, hcmd1, aonpt_qmsi_get_power_state, hps]
  · simp [aonpt_qmsi_device_ctrl, hst1, aonpt_resume_device_from_suspend,
      aonpt_qmsi_set_power_state, hsave]
  · simp [aonpt_qmsi_device_ctrl, hcmd1, hst1, aonpt_qmsi_get_power_state,
      aonpt_resume_device_from_suspend, aonpt_qmsi_set_power_state]
  · intro c x e
    unfold aonpt_qmsi_device_ctrl
    split
    · split
      · rfl
      · split <;> rfl
    · split <;> rfl

/-- The sample device is suspended with mask `0xFFFFFFFE`; while it is suspended
the mask register reads 0 and the timer configuration is lost. -/
theorem suspend_resume_round_trip_witness :
    K0.DEVICE_PM_SET_POWER_STATE ≠ K0.DEVICE_PM_GET_POWER_STATE ∧
    K0.DEVICE_PM_SUSPEND_STATE ≠ K0.DEVICE_PM_ACTIVE_STATE ∧
    (aonpt_qmsi_device_ctrl K0 K0.DEVICE_PM_SET_POWER_STATE K0.DEVICE_PM_ACTIVE_STATE
        { (aonpt_qmsi_device_ctrl K0 K0.DEVICE_PM_SET_POWER_STATE
            K0.DEVICE_PM_SUSPEND_STATE d1).2.2 with
          soc := { aonpt_cfg := 0, int_aon_timer_mask := 0 } }).2.2.soc.int_aon_timer_mask
      = 0xFFFFFFFE :=
  ⟨by decide, by decide,
    (suspend_resume_round_trip K0 d1
      { (aonpt_qmsi_device_ctrl K0 K0.DEVICE_PM_SET_POWER_STATE
            K0.DEVICE_PM_SUSPEND_STATE d1).2.2 with
          soc := { aonpt_cfg := 0, int_aon_timer_mask := 0 } }
      0 0 (by decide) (by decide) rfl rfl).2.1⟩

/-! ### What the gate encloses -/

/-- C10, at the failing input.  With reentrancy protection configured and the
gate free, `aon_timer_qmsi_start` on the sample device writes `user_cb` first and
takes the gate afterwards, and so does `aon_timer_qmsi_set_alarm` on the started
sample device: in both calls not every write to `user_cb` happens while the gate
is held.  The reset of `user_cb` after a failed write in
`aon_timer_qmsi_set_alarm` does happen while the gate is held. -/
theorem user_cb_written_before_gate_taken :
    K0.reentrancy_protection = true ∧
    (aon_timer_qmsi_start K0 hal_ok d0).map
        (fun r => events_since d0.trace.length r.2)
      = some [Event.write_user_cb none, Event.sem_take, Event.set_config start_cfg,
              Event.sem_give] ∧
    (aon_timer_qmsi_start K0 hal_ok d0).map
        (fun r => user_cb_writes_guarded false (events_since d0.trace.length r.2))
      = some false ∧
    (aon_timer_qmsi_set_alarm K0 hal_ok (some 3) 100 9 d1).map
        (fun r => events_since d1.trace.length r.2)
      = some [Event.write_user_cb (some 3), Event.sem_take,
              Event.set_config (alarm_cfg 100 9), Event.sem_give] ∧
    (aon_timer_qmsi_set_alarm K0 hal_ok (some 3) 100 9 d1).map
        (fun r => user_cb_writes_guarded false (events_since d1.trace.length r.2))
      = some false ∧
    (aon_timer_qmsi_set_alarm K0 hal_failing (some 3) 100 9 d1).map
        (fun r => events_since d1.trace.length r.2)
      = some [Event.write_user_cb (some 3), Event.sem_take,
              Event.set_config (alarm_cfg 100 9), Event.write_user_cb none,
              Event.sem_give] := by
  decide

/-- The order of the steps of a call.  With reentrancy protection configured and
the gate free, `aon_timer_qmsi_start` and, on a started device,
`aon_timer_qmsi_set_alarm` return, and the steps of the call are, in order: the
write of `user_cb` (`NULL` in start, the callback in set_alarm), the take of the
gate, the hardware configuration write, in set_alarm after a failed write the
reset of `user_cb` to `NULL`, and the release of the gate.  The configuration
write and the reset after a failure lie between the take and the release; the
first write of `user_cb` does not. -/
theorem gate_encloses_config_write (K : Config) (hal : Hal) (callback : counter_callback_t)
    (count user_data : Nat) (d : Driver) (hrp : K.reentrancy_protection = true)
    (hfree : 0 < d.sem) :
    (∃ r d1, aon_timer_qmsi_start K hal d = some (r, d1) ∧
      events_since d.trace.length d1
        = [Event.write_user_cb none, Event.sem_take, Event.set_config start_cfg,
           Event.sem_give] ∧
      config_writes_guarded false (events_since d.trace.length d1) = true) ∧
    (d.soc.aonpt_cfg ≠ 0 →
      ∃ r d1, aon_timer_qmsi_set_alarm K hal callback count user_data d = some (r, d1) ∧
        events_since d.trace.length d1
          = (if (hal d.soc (alarm_cfg count user_data)).1 ≠ 0 then
               [Event.write_user_cb callback, Event.sem_take,
                Event.set_config (alarm_cfg count user_data),
                Event.write_user_cb none, Event.sem_give]
             else
               [Event.write_user_cb callback, Event.sem_take,
                Event.set_config (alarm_cfg count user_data), Event.sem_give]) ∧
        config_writes_guarded false (events_since d.trace.length d1) = true) := by
  have hgate : K.reentrancy_protection = false ∨ 0 < d.sem := Or.inr hfree
  constructor
  · unfold aon_timer_qmsi_start
    simp only
    rw [critical_region_start_of_free K (set_user_cb none d) hgate]
    refine ⟨_, _, rfl, ?_⟩
    simp [hrp, aon_critical_region_end, nano_sem_give, qm_aonpt_set_config, set_user_cb,
      events_since, config_writes_guarded]
  · intro hstarted
    unfold aon_timer_qmsi_set_alarm
    rw [if_neg hstarted]
    simp only
    rw [critical_region_start_of_free K (set_user_cb callback d) hgate]
    simp only [hrp, if_true, qm_aonpt_set_config, set_user_cb]
    by_cases hrc : (hal d.soc (alarm_cfg count user_data)).1 = 0
    · simp only [hrc, ne_eq, not_true_eq_false, if_false]
      refine ⟨_, _, rfl, ?_⟩
      simp [hrp, aon_critical_region_end, nano_sem_give, events_since,
        config_writes_guarded]
    · simp only [hrc, ne_eq, not_false_eq_true, if_true]
      refine ⟨_, _, rfl, ?_⟩
      simp [hrp, aon_critical_region_end, nano_sem_give, events_since,
        config_writes_guarded]

/-- A started device with the gate free and a HAL whose write fails: the steps of
a start and of an alarm request. -/
theorem gate_encloses_config_write_witness :
    K0.reentrancy_protection = true ∧ 0 < d1.sem ∧
    (∃ r d2, aon_timer_qmsi_start K0 hal_failing d1 = some (r, d2) ∧
      events_since d1.trace.length d2
        = [Event.write_user_cb none, Event.sem_take, Event.set_config start_cfg,
           Event.sem_give] ∧
      config_writes_guarded false (events_since d1.trace.length d2) = true) ∧
    d1.soc.aonpt_cfg ≠ 0 ∧
    (∃ r d2, aon_timer_qmsi_set_alarm K0 hal_failing (some 3) 100 9 d1 = some (r, d2) ∧
      events_since d1.trace.length d2
        = (if (hal_failing d1.soc (alarm_cfg 100 9)).1 ≠ 0 then
             [Event.write_user_cb (some 3), Event.sem_take,
              Event.set_config (alarm_cfg 100 9),
              Event.write_user_cb none, Event.sem_give]
           else
             [Event.write_user_cb (some 3), Event.sem_take,
              Event.set_config (alarm_cfg 100 9), Event.sem_give]) ∧
      config_writes_guarded false (events_since d1.trace.length d2) = true) :=
  ⟨rfl, by decide,
    (gate_encloses_config_write K0 hal_failing (some 3) 100 9 d1 rfl (by decide)).1,
    by decide,
    (gate_encloses_config_write K0 hal_failing (some 3) 100 9 d1 rfl (by decide)).2
      (by decide)⟩

/-! ### Balance of the gate -/

/-- C11.  Whatever the hardware write returns, with the gate available
(reentrancy protection not configured, or the semaphore count positive, as for a
free gate of count 1) each of `aon_timer_qmsi_start`, `aon_timer_qmsi_stop` and
`aon_timer_qmsi_set_alarm` returns, and among the steps of the call the number of
gate takes equals the number of gate gives: one of each when protection is
configured and the call reaches the hardware write, none on the early `-ENOTSUP`
return.  The semaphore count after the call is the count before it, and with
reentrancy protection not configured the call performs no gate operation. -/
theorem gate_balanced_on_every_return (K : Config) (hal : Hal)
    (callback : counter_callback_t) (count user_data : Nat) (d : Driver)
    (hgate : K.reentrancy_protection = false ∨ 0 < d.sem) :
    (∃ r d1, aon_timer_qmsi_start K hal d = some (r, d1) ∧
      gate_takes (events_since d.trace.length d1)
        = gate_gives (events_since d.trace.length d1) ∧
      gate_takes (events_since d.trace.length d1)
        = (if K.reentrancy_protection then 1 else 0) ∧
      d1.sem = d.sem ∧
      (K.reentrancy_protection = false → gate_ops (events_since d.trace.length d1) = [])) ∧
    (∃ r d1, aon_timer_qmsi_stop K hal d = some (r, d1) ∧
      gate_takes (events_since d.trace.length d1)
        = gate_gives (events_since d.trace.length d1) ∧
      gate_takes (events_since d.trace.length d1)
        = (if K.reentrancy_protection then 1 else 0) ∧
      d1.sem = d.sem ∧
      (K.reentrancy_protection = false → gate_ops (events_since d.trace.length d1) = [])) ∧
    (∃ r d1, aon_timer_qmsi_set_alarm K hal callback count user_data d = some (r, d1) ∧
      gate_takes (events_since d.trace.length d1)
        = gate_gives (events_since d.trace.length d1) ∧
      gate_takes (events_since d.trace.length d1)
        = (if d.soc.aonpt_cfg = 0 then 0 else if K.reentrancy_protection then 1 else 0) ∧
      d1.sem = d.sem ∧
      (K.reentrancy_protection = false → gate_ops (events_since d.trace.length d1) = [])) := by
  have hsem : K.reentrancy_protection = true → d.sem - 1 + 1 = d.sem := by
    intro hrp
    rcases hgate with h | h
    · rw [hrp] at h; cases h
    · omega
  refine ⟨?_, ?_, ?_⟩
  · unfold aon_timer_qmsi_start
    simp only
    rw [critical_region_start_of_free K (set_user_cb none d) hgate]
    refine ⟨_, _, rfl, ?_⟩
    cases hrp : K.reentrancy_protection
    · simp [hrp, aon_critical_region_end, qm_aonpt_set_config, set_user_cb,
        events_since, gate_takes, gate_gives, gate_ops]
    · simp [hrp, aon_critical_region_end, nano_sem_give, qm_aonpt_set_config, set_user_cb,
        events_since, gate_takes, gate_gives, gate_ops, hsem hrp]
  · unfold aon_timer_qmsi_stop
    rw [critical_region_start_of_free K d hgate]
    refine ⟨_, _, rfl, ?_⟩
    cases hrp : K.reentrancy_protection
    · simp [hrp, aon_critical_region_end, qm_aonpt_set_config,
        events_since, gate_takes, gate_gives, gate_ops]
    · simp [hrp, aon_critical_region_end, nano_sem_give, qm_aonpt_set_config,
        events_since, gate_takes, gate_gives, gate_ops, hsem hrp]
  · unfold aon_timer_qmsi_set_alarm
    by_cases hz : d.soc.aonpt_cfg = 0
    · rw [if_pos hz]
      refine ⟨_, _, rfl, ?_⟩
      simp [hz, events_since, gate_takes, gate_gives, gate_ops]
    · rw [if_neg hz]
      simp only
      rw [critical_region_start_of_free K (set_user_cb callback d) hgate]
      by_cases hrc : (hal d.soc (alarm_cfg count user_data)).1 = 0
      · cases hrp : K.reentrancy_protection
        · simp only [hrp, qm_aonpt_set_config, set_user_cb, Bool.false_eq_true, if_false,
            hrc, ne_eq, not_true_eq_false]
          refine ⟨_, _, rfl, ?_⟩
          simp [hz, hrp, aon_critical_region_end, events_since, gate_takes, gate_gives,
            gate_ops]
        · simp only [hrp, qm_aonpt_set_config, set_user_cb, if_true,
            hrc, ne_eq, not_true_eq_false, if_false]
          refine ⟨_, _, rfl, ?_⟩
          simp [hz, hrp, aon_critical_region_end, nano_sem_give, events_since, gate_takes,
            gate_gives, gate_ops, hsem hrp]
      · cases hrp : K.reentrancy_protection
        · simp only [hrp, qm_aonpt_set_config, set_user_cb, Bool.false_eq_true, if_false,
            hrc, ne_eq, not_false_eq_true, if_true]
          refine ⟨_, _, rfl, ?_⟩
          simp [hz, hrp, aon_critical_region_end, events_since, gate_takes, gate_gives,
            gate_ops]
        · simp only [hrp, qm_aonpt_set_config, set_user_cb, if_true,
            hrc, ne_eq, not_false_eq_true]
          refine ⟨_, _, rfl, ?_⟩
          simp [hz, hrp, aon_critical_region_end, nano_sem_give, events_since, gate_takes,
            gate_gives, gate_ops, hsem hrp]

/-- A started device with the gate free (count 1), protection configured, and a
HAL whose write fails: start, stop and the alarm request each take and give the
gate once and leave the count at 1. -/
theorem gate_balanced_on_every_return_witness :
    (K0.reentrancy_protection = false ∨ 0 < d1.sem) ∧ d1.sem = 1 ∧
    (∃ r d2, aon_timer_qmsi_start K0 hal_failing d1 = some (r, d2) ∧
      gate_takes (events_since d1.trace.length d2)
        = gate_gives (events_since d1.trace.length d2) ∧
      gate_takes (events_since d1.trace.length d2)
        = (if K0.reentrancy_protection then 1 else 0) ∧
      d2.sem = d1.sem ∧
      (K0.reentrancy_protection = false →
        gate_ops (events_since d1.trace.length d2) = [])) ∧
    (∃ r d2, aon_timer_qmsi_stop K0 hal_failing d1 = some (r, d2) ∧
      gate_takes (events_since d1.trace.length d2)
        = gate_gives (events_since d1.trace.length d2) ∧
      gate_takes (events_since d1.trace.length d2)
        = (if K0.reentrancy_protection then 1 else 0) ∧
      d2.sem = d1.sem ∧
      (K0.reentrancy_protection = false →
        gate_ops (events_since d1.trace.length d2) = [])) ∧
    (∃ r d2, aon_timer_qmsi_set_alarm K0 hal_failing (some 3) 100 9 d1 = some (r, d2) ∧
      gate_takes (events_since d1.trace.length d2)
        = gate_gives (events_since d1.trace.length d2) ∧
      gate_takes (events_since d1.trace.length d2)
        = (if d1.soc.aonpt_cfg = 0 then 0 else if K0.reentrancy_protection then 1 else 0) ∧
      d2.sem = d1.sem ∧
      (K0.reentrancy_protection = false →
        gate_ops (events_since d1.trace.length d2) = [])) :=
  ⟨Or.inr (by decide), rfl,
    gate_balanced_on_every_return K0 hal_failing (some 3) 100 9 d1 (Or.inr (by decide))⟩

end Aonpt
